import Mathlib

/-!
Verification of `react/features/videosipgw/middleware.js` from the
jitsi-meet repository.

The file is a redux middleware: for every incoming action it first calls
`next(action)`, then branches on the action type.  On `CONFERENCE_WILL_JOIN`
it registers two listeners on the joining conference; on
`SIP_GW_INVITE_ROOMS` it reads the gateway availability status from the
store and either dispatches a notification, logs, or iterates the requested
rooms creating one SIP gateway session per room.  Two small helper
functions, `_availabilityChanged` and `_sessionStateChanged`, build the
actions dispatched from the registered listeners.

The embedding below renders every observable step of the middleware
(the call to `next`, listener registrations, dispatched actions, engine
calls and log lines) as an element of an effect trace, in the order the
source performs them, and records whether the middleware function returns
the result of `next(action)` or returns early with `undefined`.
-/

namespace VideoSipGw

/- Constants of the external `JitsiSIPVideoGWStatus` module of
lib-jitsi-meet (an external collaborator, not part of this repository).
Only their distinctness matters to the middleware, which compares them
with `===`; they are modelled as distinct strings. -/
namespace JitsiSIPVideoGWStatus

def STATUS_UNDEFINED : String := "undefined"

def STATUS_BUSY : String := "busy"

def STATUS_AVAILABLE : String := "available"

def ERROR_NO_CONNECTION : String := "error_no_connection"

def ERROR_SESSION_EXISTS : String := "error_session_already_exists"

def STATE_PENDING : String := "pending"

def STATE_FAILED : String := "failed"

end JitsiSIPVideoGWStatus

open JitsiSIPVideoGWStatus

/-- A room descriptor as carried by the `SIP_GW_INVITE_ROOMS` action:
`{ id: sipAddress, name: displayName }`.  In JavaScript either field can
be absent (`undefined`, modelled by `none`) or present; an empty string
is falsy, which the truthiness test below accounts for. -/
structure Room where
  id : Option String
  name : Option String
deriving DecidableEq, Repr

/-- JavaScript truthiness of an optional string field: `undefined` and
the empty string are falsy. -/
def truthy : Option String → Bool
  | none => false
  | some s => !(s == "")

/-- The destructured `sipAddress` of a room (meaningful when `truthy r.id`). -/
def Room.addr (r : Room) : String := r.id.getD ""

/-- The destructured `displayName` of a room (meaningful when `truthy r.name`). -/
def Room.dname (r : Room) : String := r.name.getD ""

/-- The guard `if (sipAddress && displayName)` of the room loop. -/
def validRoom (r : Room) : Bool := truthy r.id && truthy r.name

/-- Result of `conference.createVideoSIPGWSession(sipAddress, displayName)`:
either a session handle or an `Error` whose `message` is matched against
the error-code constants (`newSession instanceof Error`). -/
inductive CreateResult where
  | session
  | failure (msg : String)
deriving DecidableEq, Repr

/-- Severity of a user-facing notification, determined by which of
`showNotification` / `showWarningNotification` / `showErrorNotification`
the source calls. -/
inductive Severity where
  | info
  | warning
  | error
deriving DecidableEq, Repr

/-- The notification props objects built in the source.  Each field below
appears in at least one literal of the source; absent fields are `none`.
`titleArgsDisplayName` is the `displayName` value of a `titleArguments`
object, `descriptionArgsServiceName` the `serviceName` value of a
`descriptionArguments` object. -/
structure NotifProps where
  titleKey : Option String := none
  titleArgsDisplayName : Option String := none
  descriptionKey : Option String := none
  descriptionArgsServiceName : Option String := none
deriving DecidableEq, Repr

/-- An action handed to `dispatch`. -/
inductive DispatchedAction where
  | availabilityChanged (status : String)
  | notif (severity : Severity) (props : NotifProps) (timeout : Option Nat)
deriving DecidableEq, Repr

/-- The `_availabilityChanged` helper: builds the
`SIP_GW_AVAILABILITY_CHANGED` action carrying the new status unchanged. -/
def availabilityChangedAction (status : String) : DispatchedAction :=
  DispatchedAction.availabilityChanged status

/-- `showErrorNotification(props)` of the notifications feature. -/
def showErrorNotification (props : NotifProps) : DispatchedAction :=
  DispatchedAction.notif Severity.error props none

/-- `showWarningNotification(props)` of the notifications feature. -/
def showWarningNotification (props : NotifProps) : DispatchedAction :=
  DispatchedAction.notif Severity.warning props none

/-- `showNotification(Notification, props, timeout)` of the notifications
feature (a plain informational notification). -/
def showInfoNotification (props : NotifProps) (timeout : Option Nat) :
    DispatchedAction :=
  DispatchedAction.notif Severity.info props timeout

/-- Props of the error notification dispatched when status is UNDEFINED. -/
def unavailableProps : NotifProps :=
  { descriptionKey := some "recording.unavailable"
    descriptionArgsServiceName := some "$t(videoSIPGW.serviceName)"
    titleKey := some "videoSIPGW.unavailableTitle" }

/-- Props of the warning notification dispatched when status is BUSY. -/
def busyProps : NotifProps :=
  { descriptionKey := some "videoSIPGW.busy"
    titleKey := some "videoSIPGW.busyTitle" }

/-- Props of the error notification dispatched on `ERROR_NO_CONNECTION`. -/
def errorInviteProps : NotifProps :=
  { descriptionKey := some "videoSIPGW.errorInvite"
    titleKey := some "videoSIPGW.errorInviteTitle" }

/-- Props of the warning notification dispatched on `ERROR_SESSION_EXISTS`. -/
def alreadyInvitedProps (displayName : String) : NotifProps :=
  { titleKey := some "videoSIPGW.errorAlreadyInvited"
    titleArgsDisplayName := some displayName }

/-- Props of the informational notification for a PENDING session state. -/
def pendingProps (displayName : String) : NotifProps :=
  { titleKey := some "videoSIPGW.pending"
    titleArgsDisplayName := some displayName }

/-- Props of the error notification for a FAILED session state. -/
def inviteFailedProps (displayName : String) : NotifProps :=
  { titleKey := some "videoSIPGW.errorInviteFailedTitle"
    titleArgsDisplayName := some displayName
    descriptionKey := some "videoSIPGW.errorInviteFailed" }

/-- One observable step of the middleware, in source order: the call to
`next(action)`, a `conference.on(...)` registration, a `dispatch`, an
engine call (`createVideoSIPGWSession` / `session.start()`), or one of
the three `logger.error` call sites with its dynamic arguments. -/
inductive Effect where
  | nextAction
  | addListener (eventName : String)
  | dispatchAct (a : DispatchedAction)
  | createSession (sipAddress displayName : String)
  | startSession (sipAddress displayName : String)
  | logUnknownStatus (status : String)
  | logUnknownError (msg : String)
  | logNoFields (room : Room)
deriving DecidableEq, Repr

/-- The `for (const room of action.rooms)` loop of the
`SIP_GW_INVITE_ROOMS` case, run after the status checks have passed.
`create` is the behaviour of `action.conference.createVideoSIPGWSession`.
Returns the emitted effects in order, and `true` when the loop ran to
completion (so control falls through to `return result`), `false` when a
`return` inside the loop exited the middleware early. -/
def processRooms (create : String → String → CreateResult) :
    List Room → List Effect × Bool
  | [] => ([], true)
  | room :: rest =>
    if validRoom room then
      let sipAddress := room.addr
      let displayName := room.dname
      match create sipAddress displayName with
      | CreateResult.failure msg =>
        if msg = ERROR_NO_CONNECTION then
          ([Effect.createSession sipAddress displayName,
            Effect.dispatchAct (showErrorNotification errorInviteProps)],
           false)
        else if msg = ERROR_SESSION_EXISTS then
          ([Effect.createSession sipAddress displayName,
            Effect.dispatchAct
              (showWarningNotification (alreadyInvitedProps displayName))],
           false)
        else
          ([Effect.createSession sipAddress displayName,
            Effect.logUnknownError msg], false)
      | CreateResult.session =>
        let tail := processRooms create rest
        (Effect.createSession sipAddress displayName ::
          Effect.startSession sipAddress displayName :: tail.1, tail.2)
    else
      let tail := processRooms create rest
      (Effect.logNoFields room :: tail.1, tail.2)

/-- An incoming redux action as seen by this middleware: the two matched
types (with the payload fields the middleware reads) and any other
action.  For `SIP_GW_INVITE_ROOMS` the `create` field is the behaviour
of `action.conference.createVideoSIPGWSession`. -/
inductive IncomingAction where
  | conferenceWillJoin
  | sipGwInviteRooms (rooms : List Room)
      (create : String → String → CreateResult)
  | other

/-- The middleware function registered with `MiddlewareRegistry.register`.
`status` is the value of `getState()['features/videosipgw'].status`.
Returns the effect trace and `true` when the function returns
`result = next(action)`, `false` when it returns `undefined` via an
early `return`. -/
def middleware (status : String) : IncomingAction → List Effect × Bool
  | IncomingAction.conferenceWillJoin =>
    ([Effect.nextAction,
      Effect.addListener "VIDEO_SIP_GW_AVAILABILITY_CHANGED",
      Effect.addListener "VIDEO_SIP_GW_SESSION_STATE_CHANGED"], true)
  | IncomingAction.sipGwInviteRooms rooms create =>
    if status = STATUS_UNDEFINED then
      ([Effect.nextAction,
        Effect.dispatchAct (showErrorNotification unavailableProps)], false)
    else if status = STATUS_BUSY then
      ([Effect.nextAction,
        Effect.dispatchAct (showWarningNotification busyProps)], false)
    else if status ≠ STATUS_AVAILABLE then
      ([Effect.nextAction, Effect.logUnknownStatus status], false)
    else
      let loop := processRooms create rooms
      (Effect.nextAction :: loop.1, loop.2)
  | IncomingAction.other => ([Effect.nextAction], true)

/-- The event object delivered to the
`VIDEO_SIP_GW_SESSION_STATE_CHANGED` listener (the two fields the source
reads). -/
structure SessionStateEvent where
  newState : String
  displayName : String
deriving DecidableEq, Repr

/-- The `_sessionStateChanged` helper: maps a session state change event
to the action to dispatch, or `null` when there is nothing to show. -/
def sessionStateChanged (event : SessionStateEvent) :
    Option DispatchedAction :=
  if event.newState = STATE_PENDING then
    some (showInfoNotification (pendingProps event.displayName) (some 2000))
  else if event.newState = STATE_FAILED then
    some (showErrorNotification (inviteFailedProps event.displayName))
  else
    none

/-- The listener registered for `VIDEO_SIP_GW_SESSION_STATE_CHANGED`:
dispatches the result of `_sessionStateChanged` when it is non-null. -/
def sessionStateListener (event : SessionStateEvent) :
    List DispatchedAction :=
  match sessionStateChanged event with
  | some a => [a]
  | none => []

/-- The listener registered for `VIDEO_SIP_GW_AVAILABILITY_CHANGED`:
dispatches the `_availabilityChanged` action once. -/
def availabilityListener (newStatus : String) : List DispatchedAction :=
  [availabilityChangedAction newStatus]

/-- Actions handed to `dispatch` within an effect trace, in order. -/
def dispatchesOf (effs : List Effect) : List DispatchedAction :=
  effs.filterMap fun e =>
    match e with
    | Effect.dispatchAct a => some a
    | _ => none

/-- Arguments of the `createVideoSIPGWSession` calls in a trace, in order. -/
def createsOf (effs : List Effect) : List (String × String) :=
  effs.filterMap fun e =>
    match e with
    | Effect.createSession a n => some (a, n)
    | _ => none

/-- Arguments of the `session.start()` calls in a trace, in order
(a session is identified by its creation arguments). -/
def startsOf (effs : List Effect) : List (String × String) :=
  effs.filterMap fun e =>
    match e with
    | Effect.startSession a n => some (a, n)
    | _ => none

/-- Number of `next(action)` calls in a trace. -/
def countNext (effs : List Effect) : Nat :=
  effs.countP fun e =>
    match e with
    | Effect.nextAction => true
    | _ => false

/-- Whether a dispatched action is a notification of the given severity. -/
def isNotifOf (sev : Severity) : DispatchedAction → Bool
  | DispatchedAction.notif s _ _ => s == sev
  | _ => false

/-- A room the loop passes over without exiting: either it is skipped for
missing fields, or its session creation succeeds. -/
def okRoom (create : String → String → CreateResult) (r : Room) : Bool :=
  !validRoom r || (create r.addr r.dname == CreateResult.session)

/-- Effects the loop emits for a room it passes over. -/
def okEffs (create : String → String → CreateResult) (r : Room) :
    List Effect :=
  if validRoom r then
    match create r.addr r.dname with
    | CreateResult.session =>
      [Effect.createSession r.addr r.dname,
       Effect.startSession r.addr r.dname]
    | CreateResult.failure _ => []
  else
    [Effect.logNoFields r]

/-- Effects of a run of the loop across rooms it passes over. -/
def loopEffs (create : String → String → CreateResult) :
    List Room → List Effect
  | [] => []
  | r :: rs => okEffs create r ++ loopEffs create rs

/-- The creation calls expected for the valid rooms of a list, in order. -/
def validCreates (rooms : List Room) : List (String × String) :=
  (rooms.filter fun r => validRoom r).map fun r => (r.addr, r.dname)

/-- A conference handle on which every session creation succeeds. -/
def createOk : String → String → CreateResult := fun _ _ =>
  CreateResult.session

/-- A conference handle failing with `ERROR_NO_CONNECTION` on one address. -/
def createFailNoConn : String → String → CreateResult := fun a _ =>
  if a = "sip:bad" then CreateResult.failure ERROR_NO_CONNECTION
  else CreateResult.session

/-- A conference handle failing with `ERROR_SESSION_EXISTS` on one address. -/
def createFailExists : String → String → CreateResult := fun a _ =>
  if a = "sip:bad" then CreateResult.failure ERROR_SESSION_EXISTS
  else CreateResult.session

/-- A conference handle failing with an unrecognized error on one address. -/
def createFailOdd : String → String → CreateResult := fun a _ =>
  if a = "sip:bad" then CreateResult.failure "weird" else CreateResult.session

/-- A complete room descriptor. -/
def roomA : Room := { id := some "sip:a", name := some "Alice" }

/-- A second complete room descriptor. -/
def roomB : Room := { id := some "sip:b", name := some "Bob" }

/-- A room descriptor with no `id` field. -/
def roomNoId : Room := { id := none, name := some "Carol" }

/-- A complete room descriptor whose address the failing handles reject. -/
def roomBad : Room := { id := some "sip:bad", name := some "Dave" }

theorem avail_ne_undef : STATUS_AVAILABLE ≠ STATUS_UNDEFINED := by decide

theorem avail_ne_busy : STATUS_AVAILABLE ≠ STATUS_BUSY := by decide

/-- Unfolding of the middleware on an invite action when the stored
status is AVAILABLE: `next` runs, then the room loop. -/
theorem middleware_available (create : String → String → CreateResult)
    (rooms : List Room) :
    middleware STATUS_AVAILABLE (IncomingAction.sipGwInviteRooms rooms create)
      = (Effect.nextAction :: (processRooms create rooms).1,
         (processRooms create rooms).2) := by
  simp [middleware, avail_ne_undef, avail_ne_busy]

theorem dispatchesOf_append (a b : List Effect) :
    dispatchesOf (a ++ b) = dispatchesOf a ++ dispatchesOf b := by
  simp [dispatchesOf, List.filterMap_append]

theorem createsOf_append (a b : List Effect) :
    createsOf (a ++ b) = createsOf a ++ createsOf b := by
  simp [createsOf, List.filterMap_append]

theorem startsOf_append (a b : List Effect) :
    startsOf (a ++ b) = startsOf a ++ startsOf b := by
  simp [startsOf, List.filterMap_append]

/-- A room the loop passes over never causes a dispatch. -/
theorem dispatchesOf_okEffs (create : String → String → CreateResult)
    (r : Room) : dispatchesOf (okEffs create r) = [] := by
  unfold okEffs
  by_cases hv : validRoom r = true
  · simp only [hv, if_true]
    cases create r.addr r.dname <;> rfl
  · simp [hv, dispatchesOf]

/-- No dispatch happens across rooms the loop passes over. -/
theorem dispatchesOf_loopEffs (create : String → String → CreateResult)
    (rooms : List Room) : dispatchesOf (loopEffs create rooms) = [] := by
  induction rooms with
  | nil => rfl
  | cons r rs ih =>
    simp [loopEffs, dispatchesOf_append, dispatchesOf_okEffs, ih]

/-- A successfully passed room contributes one creation call when valid,
none when skipped. -/
theorem createsOf_okEffs (create : String → String → CreateResult)
    (r : Room) (h : okRoom create r = true) :
    createsOf (okEffs create r) =
      if validRoom r then [(r.addr, r.dname)] else [] := by
  by_cases hv : validRoom r = true
  · have hc : create r.addr r.dname = CreateResult.session := by
      simpa [okRoom, hv] using h
    simp [okEffs, hv, hc, createsOf]
  · simp [okEffs, hv, createsOf]

/-- Creation calls across passed-over rooms: one per valid room, in order. -/
theorem createsOf_loopEffs (create : String → String → CreateResult)
    (rooms : List Room) (h : ∀ r ∈ rooms, okRoom create r = true) :
    createsOf (loopEffs create rooms) = validCreates rooms := by
  induction rooms with
  | nil => rfl
  | cons r rs ih =>
    have hr := h r (by simp)
    have hrs : ∀ p ∈ rs, okRoom create p = true := fun p hp => h p (by simp [hp])
    by_cases hv : validRoom r = true
    · simp [loopEffs, createsOf_append, createsOf_okEffs create r hr, hv,
        ih hrs, validCreates, List.filter_cons]
    · simp [loopEffs, createsOf_append, createsOf_okEffs create r hr, hv,
        ih hrs, validCreates, List.filter_cons]

/-- The loop prefix lemma: rooms it passes over only prepend their
effects; the loop continues on the remainder unchanged. -/
theorem processRooms_ok_append (create : String → String → CreateResult)
    (pre : List Room) (h : ∀ r ∈ pre, okRoom create r = true)
    (rest : List Room) :
    processRooms create (pre ++ rest) =
      (loopEffs create pre ++ (processRooms create rest).1,
       (processRooms create rest).2) := by
  induction pre with
  | nil => simp [loopEffs]
  | cons room pre ih =>
    have hroom : okRoom create room = true := h room (by simp)
    have hpre : ∀ r ∈ pre, okRoom create r = true := fun r hr =>
      h r (by simp [hr])
    have ih' := ih hpre
    by_cases hv : validRoom room = true
    · have hc : create room.addr room.dname = CreateResult.session := by
        simpa [okRoom, hv] using hroom
      simp [List.cons_append, processRooms, hv, hc, loopEffs, okEffs, ih']
    · simp [List.cons_append, processRooms, hv, loopEffs, okEffs, ih']

/-- When every room passes, the loop runs to completion. -/
theorem processRooms_eq_of_ok (create : String → String → CreateResult)
    (rooms : List Room) (h : ∀ r ∈ rooms, okRoom create r = true) :
    processRooms create rooms = (loopEffs create rooms, true) := by
  have := processRooms_ok_append create rooms h []
  simpa [processRooms] using this

/-- The room loop never calls `next`. -/
theorem countNext_processRooms (create : String → String → CreateResult)
    (rooms : List Room) : countNext (processRooms create rooms).1 = 0 := by
  induction rooms with
  | nil => rfl
  | cons r rs ih =>
    unfold processRooms
    by_cases hv : validRoom r = true
    · simp only [hv, if_true]
      cases hc : create r.addr r.dname with
      | failure msg =>
        by_cases h1 : msg = ERROR_NO_CONNECTION
        · simp [h1, countNext]
        · by_cases h2 : msg = ERROR_SESSION_EXISTS
          · have hne : ERROR_SESSION_EXISTS ≠ ERROR_NO_CONNECTION := by decide
            subst h2
            simp [hne, countNext]
          · simp [h1, h2, countNext]
      | session =>
        simpa [countNext, List.countP_cons] using ih
    · simpa [hv, countNext, List.countP_cons] using ih

/-- The loop exits the middleware early exactly when the room list splits
into a passed-over prefix followed by a valid room whose creation fails. -/
theorem processRooms_false_iff (create : String → String → CreateResult)
    (rooms : List Room) :
    (processRooms create rooms).2 = false ↔
      ∃ pre r post, rooms = pre ++ r :: post
        ∧ (∀ p ∈ pre, okRoom create p = true)
        ∧ validRoom r = true
        ∧ ∃ msg, create r.addr r.dname = CreateResult.failure msg := by
  induction rooms with
  | nil =>
    simp only [processRooms]
    constructor
    · intro h
      exact absurd h (by simp)
    · rintro ⟨pre, r, post, heq, -⟩
      exact absurd heq (by simp)
  | cons room rest ih =>
    constructor
    · intro hfalse
      by_cases hv : validRoom room = true
      · cases hc : create room.addr room.dname with
        | failure msg => exact ⟨[], room, rest, rfl, by simp, hv, msg, hc⟩
        | session =>
          have h2 : (processRooms create rest).2 = false := by
            unfold processRooms at hfalse
            simpa [hv, hc] using hfalse
          obtain ⟨pre, r, post, heq, hok, hvr, msg, hcr⟩ := ih.mp h2
          refine ⟨room :: pre, r, post, by simp [heq], ?_, hvr, msg, hcr⟩
          intro p hp
          rcases List.mem_cons.mp hp with hp | hp
          · subst hp
            simp [okRoom, hv, hc]
          · exact hok p hp
      · have h2 : (processRooms create rest).2 = false := by
          unfold processRooms at hfalse
          simpa [hv] using hfalse
        obtain ⟨pre, r, post, heq, hok, hvr, msg, hcr⟩ := ih.mp h2
        refine ⟨room :: pre, r, post, by simp [heq], ?_, hvr, msg, hcr⟩
        intro p hp
        rcases List.mem_cons.mp hp with hp | hp
        · subst hp
          simp [okRoom, hv]
        · exact hok p hp
    · rintro ⟨pre, r, post, heq, hok, hvr, msg, hcr⟩
      rcases pre with _ | ⟨p0, pre⟩
      · simp only [List.nil_append, List.cons.injEq] at heq
        obtain ⟨h1, h2⟩ := heq
        subst h1
        subst h2
        unfold processRooms
        simp only [hvr, if_true, hcr]
        split
        · rfl
        · split
          · rfl
          · rfl
      · simp only [List.cons_append, List.cons.injEq] at heq
        obtain ⟨h1, h2⟩ := heq
        subst h1
        have hok0 : okRoom create room = true := hok room (by simp)
        have hrest : (processRooms create rest).2 = false :=
          ih.mpr ⟨pre, r, post, h2, fun p hp => hok p (by simp [hp]),
            hvr, msg, hcr⟩
        by_cases hv : validRoom room = true
        · have hc : create room.addr room.dname = CreateResult.session := by
            simpa [okRoom, hv] using hok0
          unfold processRooms
          simpa [hv, hc] using hrest
        · unfold processRooms
          simpa [hv] using hrest

theorem dispatchesOf_cons_next (l : List Effect) :
    dispatchesOf (Effect.nextAction :: l) = dispatchesOf l := by
  simp [dispatchesOf]

theorem createsOf_cons_next (l : List Effect) :
    createsOf (Effect.nextAction :: l) = createsOf l := by
  simp [createsOf]

theorem startsOf_cons_next (l : List Effect) :
    startsOf (Effect.nextAction :: l) = startsOf l := by
  simp [startsOf]

theorem dispatchesOf_cons_log (r : Room) (l : List Effect) :
    dispatchesOf (Effect.logNoFields r :: l) = dispatchesOf l := by
  simp [dispatchesOf]

theorem createsOf_cons_log (r : Room) (l : List Effect) :
    createsOf (Effect.logNoFields r :: l) = createsOf l := by
  simp [createsOf]

theorem dispatchesOf_create_dispatch (a n : String) (x : DispatchedAction) :
    dispatchesOf [Effect.createSession a n, Effect.dispatchAct x] = [x] :=
  rfl

theorem dispatchesOf_create_log (a n m : String) :
    dispatchesOf [Effect.createSession a n, Effect.logUnknownError m] = [] :=
  rfl

/-- A valid room whose creation succeeds contributes one creation call. -/
theorem createsOf_okEffs_ok (create : String → String → CreateResult)
    (r : Room) (hv : validRoom r = true)
    (hc : create r.addr r.dname = CreateResult.session) :
    createsOf (okEffs create r) = [(r.addr, r.dname)] := by
  simp [okEffs, hv, hc, createsOf]

/-- A valid room whose creation succeeds contributes one start call. -/
theorem startsOf_okEffs_ok (create : String → String → CreateResult)
    (r : Room) (hv : validRoom r = true)
    (hc : create r.addr r.dname = CreateResult.session) :
    startsOf (okEffs create r) = [(r.addr, r.dname)] := by
  simp [okEffs, hv, hc, startsOf]

/-- With every room valid and every creation succeeding, the loop makes
one creation call per room, in the order given. -/
theorem createsOf_loopEffs_all (create : String → String → CreateResult)
    (rooms : List Room)
    (h : ∀ r ∈ rooms, validRoom r = true
      ∧ create r.addr r.dname = CreateResult.session) :
    createsOf (loopEffs create rooms) = rooms.map fun r => (r.addr, r.dname)
    := by
  induction rooms with
  | nil => rfl
  | cons r rs ih =>
    obtain ⟨hv, hc⟩ := h r (by simp)
    have ih' := ih fun p hp => h p (by simp [hp])
    simp [loopEffs, createsOf_append, createsOf_okEffs_ok create r hv hc, ih']

/-- With every room valid and every creation succeeding, the loop starts
each created session, in the order given. -/
theorem startsOf_loopEffs_all (create : String → String → CreateResult)
    (rooms : List Room)
    (h : ∀ r ∈ rooms, validRoom r = true
      ∧ create r.addr r.dname = CreateResult.session) :
    startsOf (loopEffs create rooms) = rooms.map fun r => (r.addr, r.dname)
    := by
  induction rooms with
  | nil => rfl
  | cons r rs ih =>
    obtain ⟨hv, hc⟩ := h r (by simp)
    have ih' := ih fun p hp => h p (by simp [hp])
    simp [loopEffs, startsOf_append, startsOf_okEffs_ok create r hv hc, ih']

/-- C2: on an invite-rooms command, status UNDEFINED dispatches exactly
one error notification (the unavailable template) and issues no
session-creation call; status BUSY dispatches exactly one warning
notification (the busy template) and issues no session-creation call.
In both cases no rooms are processed: the whole trace is the `next` call
followed by the single dispatch, and the middleware returns early. -/
theorem claim_C2 (create : String → String → CreateResult)
    (rooms : List Room) :
    (middleware STATUS_UNDEFINED (IncomingAction.sipGwInviteRooms rooms create)
       = ([Effect.nextAction,
           Effect.dispatchAct (showErrorNotification unavailableProps)],
          false)
     ∧ dispatchesOf (middleware STATUS_UNDEFINED
         (IncomingAction.sipGwInviteRooms rooms create)).1
       = [showErrorNotification unavailableProps]
     ∧ createsOf (middleware STATUS_UNDEFINED
         (IncomingAction.sipGwInviteRooms rooms create)).1 = [])
    ∧ (middleware STATUS_BUSY (IncomingAction.sipGwInviteRooms rooms create)
       = ([Effect.nextAction,
           Effect.dispatchAct (showWarningNotification busyProps)], false)
     ∧ dispatchesOf (middleware STATUS_BUSY
         (IncomingAction.sipGwInviteRooms rooms create)).1
       = [showWarningNotification busyProps]
     ∧ createsOf (middleware STATUS_BUSY
         (IncomingAction.sipGwInviteRooms rooms create)).1 = []) := by
  have hbu : STATUS_BUSY ≠ STATUS_UNDEFINED := by decide
  have hu : middleware STATUS_UNDEFINED
      (IncomingAction.sipGwInviteRooms rooms create)
      = ([Effect.nextAction,
          Effect.dispatchAct (showErrorNotification unavailableProps)],
         false) := by
    simp [middleware]
  have hb : middleware STATUS_BUSY
      (IncomingAction.sipGwInviteRooms rooms create)
      = ([Effect.nextAction,
          Effect.dispatchAct (showWarningNotification busyProps)], false) := by
    simp [middleware, hbu]
  refine ⟨⟨hu, ?_, ?_⟩, hb, ?_, ?_⟩ <;> first
    | (rw [hu]; rfl)
    | (rw [hb]; rfl)

/-- C4: the session-state-changed handler dispatches, for PENDING, one
informational notification carrying the display name as title argument
and an auto-dismiss timeout of 2000; for FAILED, one error notification
carrying the display name; and for any other state, nothing at all. -/
theorem claim_C4 (e : SessionStateEvent) :
    (e.newState = STATE_PENDING →
      sessionStateListener e
        = [showInfoNotification (pendingProps e.displayName) (some 2000)])
    ∧ (e.newState = STATE_FAILED →
      sessionStateListener e
        = [showErrorNotification (inviteFailedProps e.displayName)])
    ∧ (e.newState ≠ STATE_PENDING → e.newState ≠ STATE_FAILED →
      sessionStateListener e = []) := by
  have hfp : STATE_FAILED ≠ STATE_PENDING := by decide
  refine ⟨?_, ?_, ?_⟩
  · intro h
    simp [sessionStateListener, sessionStateChanged, h]
  · intro h
    simp [sessionStateListener, sessionStateChanged, h, hfp]
  · intro h1 h2
    simp [sessionStateListener, sessionStateChanged, h1, h2]

/-- C4 witness: concrete events for each of the three branches. -/
theorem claim_C4_witness :
    sessionStateListener ⟨STATE_PENDING, "A"⟩
      = [showInfoNotification (pendingProps "A") (some 2000)]
    ∧ sessionStateListener ⟨STATE_FAILED, "B"⟩
      = [showErrorNotification (inviteFailedProps "B")]
    ∧ sessionStateListener ⟨"connected", "C"⟩ = [] :=
  ⟨(claim_C4 ⟨STATE_PENDING, "A"⟩).1 rfl,
   (claim_C4 ⟨STATE_FAILED, "B"⟩).2.1 rfl,
   (claim_C4 ⟨"connected", "C"⟩).2.2 (by decide) (by decide)⟩

/-- C5: the availability-changed listener dispatches exactly one
SIP_GW_AVAILABILITY_CHANGED action whose status field is the delivered
value, unchanged, for every value. -/
theorem claim_C5 (newStatus : String) :
    availabilityListener newStatus
      = [DispatchedAction.availabilityChanged newStatus]
    ∧ (availabilityListener newStatus).length = 1 :=
  ⟨rfl, rfl⟩

/-- C8: for an invite-rooms command, no session is ever created unless
the stored status is AVAILABLE; with a status other than the three known
values the middleware only logs the unknown status and returns early,
dispatching nothing and creating nothing. -/
theorem claim_C8 (status : String)
    (create : String → String → CreateResult) (rooms : List Room)
    (h : status ≠ STATUS_AVAILABLE) :
    createsOf (middleware status
        (IncomingAction.sipGwInviteRooms rooms create)).1 = []
    ∧ (status ≠ STATUS_UNDEFINED → status ≠ STATUS_BUSY →
        middleware status (IncomingAction.sipGwInviteRooms rooms create)
          = ([Effect.nextAction, Effect.logUnknownStatus status], false)) := by
  by_cases h1 : status = STATUS_UNDEFINED
  · subst h1
    refine ⟨?_, fun hc _ => absurd rfl hc⟩
    have hu : middleware STATUS_UNDEFINED
        (IncomingAction.sipGwInviteRooms rooms create)
        = ([Effect.nextAction,
            Effect.dispatchAct (showErrorNotification unavailableProps)],
           false) := by
      simp [middleware]
    rw [hu]
    rfl
  · by_cases h2 : status = STATUS_BUSY
    · subst h2
      refine ⟨?_, fun _ hc => absurd rfl hc⟩
      have hbu : STATUS_BUSY ≠ STATUS_UNDEFINED := by decide
      have hb : middleware STATUS_BUSY
          (IncomingAction.sipGwInviteRooms rooms create)
          = ([Effect.nextAction,
              Effect.dispatchAct (showWarningNotification busyProps)],
             false) := by
        simp [middleware, hbu]
      rw [hb]
      rfl
    · have hmw : middleware status
          (IncomingAction.sipGwInviteRooms rooms create)
          = ([Effect.nextAction, Effect.logUnknownStatus status], false) := by
        simp [middleware, h1, h2, h]
      exact ⟨by rw [hmw]; rfl, fun _ _ => hmw⟩

/-- C8 witness: a status value outside the known enumeration. -/
theorem claim_C8_witness :
    createsOf (middleware "bogus"
        (IncomingAction.sipGwInviteRooms [roomA] createOk)).1 = []
    ∧ middleware "bogus" (IncomingAction.sipGwInviteRooms [roomA] createOk)
        = ([Effect.nextAction, Effect.logUnknownStatus "bogus"], false) := by
  have h := claim_C8 "bogus" createOk [roomA] (by decide)
  exact ⟨h.1, h.2 (by decide) (by decide)⟩

/-- C9: for every status and every incoming action, the effect trace of
the middleware begins with the single call to `next(action)` and
contains no further `next` call, on every branch and early return. -/
theorem claim_C9 (status : String) (action : IncomingAction) :
    ∃ rest, (middleware status action).1 = Effect.nextAction :: rest
      ∧ countNext rest = 0 := by
  cases action with
  | conferenceWillJoin => exact ⟨_, rfl, rfl⟩
  | other => exact ⟨_, rfl, rfl⟩
  | sipGwInviteRooms rooms create =>
    by_cases h1 : status = STATUS_UNDEFINED
    · subst h1
      exact ⟨[Effect.dispatchAct (showErrorNotification unavailableProps)],
        by simp [middleware], rfl⟩
    · by_cases h2 : status = STATUS_BUSY
      · subst h2
        have hbu : STATUS_BUSY ≠ STATUS_UNDEFINED := by decide
        exact ⟨[Effect.dispatchAct (showWarningNotification busyProps)],
          by simp [middleware, hbu], rfl⟩
      · by_cases h3 : status = STATUS_AVAILABLE
        · subst h3
          exact ⟨(processRooms create rooms).1,
            by rw [middleware_available],
            countNext_processRooms create rooms⟩
        · exact ⟨[Effect.logUnknownStatus status],
            by simp [middleware, h1, h2, h3], rfl⟩

/-- C1: with status AVAILABLE, when the first non-passed room's creation
fails with ERROR_NO_CONNECTION the middleware dispatches exactly one
error notification; when it fails with ERROR_SESSION_EXISTS, exactly one
warning notification whose title arguments carry that room's display
name.  Either way the loop stops: the creation calls are exactly those
for the valid rooms of the prefix plus the failing room, so no later
room is ever attempted. -/
theorem claim_C1 (create : String → String → CreateResult)
    (pre : List Room) (r : Room) (post : List Room) (msg : String)
    (hpre : ∀ p ∈ pre, okRoom create p = true)
    (hr : validRoom r = true)
    (hc : create r.addr r.dname = CreateResult.failure msg) :
    createsOf (middleware STATUS_AVAILABLE
        (IncomingAction.sipGwInviteRooms (pre ++ r :: post) create)).1
      = validCreates pre ++ [(r.addr, r.dname)]
    ∧ (msg = ERROR_NO_CONNECTION →
        middleware STATUS_AVAILABLE
            (IncomingAction.sipGwInviteRooms (pre ++ r :: post) create)
          = (Effect.nextAction :: (loopEffs create pre
              ++ [Effect.createSession r.addr r.dname,
                  Effect.dispatchAct
                    (showErrorNotification errorInviteProps)]), false)
        ∧ dispatchesOf (middleware STATUS_AVAILABLE
            (IncomingAction.sipGwInviteRooms (pre ++ r :: post) create)).1
          = [showErrorNotification errorInviteProps])
    ∧ (msg = ERROR_SESSION_EXISTS →
        middleware STATUS_AVAILABLE
            (IncomingAction.sipGwInviteRooms (pre ++ r :: post) create)
          = (Effect.nextAction :: (loopEffs create pre
              ++ [Effect.createSession r.addr r.dname,
                  Effect.dispatchAct (showWarningNotification
                    (alreadyInvitedProps r.dname))]), false)
        ∧ dispatchesOf (middleware STATUS_AVAILABLE
            (IncomingAction.sipGwInviteRooms (pre ++ r :: post) create)).1
          = [showWarningNotification (alreadyInvitedProps r.dname)]) := by
  have happ := processRooms_ok_append create pre hpre (r :: post)
  have hcr : createsOf (processRooms create (r :: post)).1
      = [(r.addr, r.dname)] := by
    unfold processRooms
    simp only [hr, if_true, hc]
    split
    · rfl
    · split
      · rfl
      · rfl
  have htr : (middleware STATUS_AVAILABLE
      (IncomingAction.sipGwInviteRooms (pre ++ r :: post) create)).1
      = Effect.nextAction :: (loopEffs create pre
          ++ (processRooms create (r :: post)).1) := by
    rw [middleware_available, happ]
  refine ⟨?_, ?_, ?_⟩
  · rw [htr, createsOf_cons_next, createsOf_append,
      createsOf_loopEffs create pre hpre, hcr]
  · intro hm
    subst hm
    have htail : processRooms create (r :: post)
        = ([Effect.createSession r.addr r.dname,
            Effect.dispatchAct (showErrorNotification errorInviteProps)],
           false) := by
      unfold processRooms
      simp [hr, hc]
    have hmw : middleware STATUS_AVAILABLE
        (IncomingAction.sipGwInviteRooms (pre ++ r :: post) create)
        = (Effect.nextAction :: (loopEffs create pre
            ++ [Effect.createSession r.addr r.dname,
                Effect.dispatchAct
                  (showErrorNotification errorInviteProps)]), false) := by
      rw [middleware_available, happ, htail]
    have htail1 : (processRooms create (r :: post)).1
        = [Effect.createSession r.addr r.dname,
           Effect.dispatchAct (showErrorNotification errorInviteProps)] := by
      rw [htail]
    refine ⟨hmw, ?_⟩
    rw [htr, htail1, dispatchesOf_cons_next, dispatchesOf_append,
      dispatchesOf_loopEffs, dispatchesOf_create_dispatch]
    rfl
  · intro hm
    subst hm
    have hne : ERROR_SESSION_EXISTS ≠ ERROR_NO_CONNECTION := by decide
    have htail : processRooms create (r :: post)
        = ([Effect.createSession r.addr r.dname,
            Effect.dispatchAct (showWarningNotification
              (alreadyInvitedProps r.dname))], false) := by
      unfold processRooms
      simp [hr, hc, hne]
    have hmw : middleware STATUS_AVAILABLE
        (IncomingAction.sipGwInviteRooms (pre ++ r :: post) create)
        = (Effect.nextAction :: (loopEffs create pre
            ++ [Effect.createSession r.addr r.dname,
                Effect.dispatchAct (showWarningNotification
                  (alreadyInvitedProps r.dname))]), false) := by
      rw [middleware_available, happ, htail]
    have htail1 : (processRooms create (r :: post)).1
        = [Effect.createSession r.addr r.dname,
           Effect.dispatchAct (showWarningNotification
             (alreadyInvitedProps r.dname))] := by
      rw [htail]
    refine ⟨hmw, ?_⟩
    rw [htr, htail1, dispatchesOf_cons_next, dispatchesOf_append,
      dispatchesOf_loopEffs, dispatchesOf_create_dispatch]
    rfl

/-- C1 witness: a successful room, then a room failing with
ERROR_NO_CONNECTION, then a never-attempted room. -/
theorem claim_C1_witness :
    createsOf (middleware STATUS_AVAILABLE
        (IncomingAction.sipGwInviteRooms ([roomA] ++ roomBad :: [roomB])
          createFailNoConn)).1
      = validCreates [roomA] ++ [(roomBad.addr, roomBad.dname)]
    ∧ dispatchesOf (middleware STATUS_AVAILABLE
        (IncomingAction.sipGwInviteRooms ([roomA] ++ roomBad :: [roomB])
          createFailNoConn)).1
      = [showErrorNotification errorInviteProps] := by
  have h := claim_C1 createFailNoConn [roomA] roomBad [roomB]
    ERROR_NO_CONNECTION (by decide) (by decide) (by decide)
  exact ⟨h.1, (h.2.1 rfl).2⟩

/-- C3: with status AVAILABLE, when every room is complete and every
creation succeeds, the middleware creates one session per room in the
order given, starts each of them in order, dispatches no notification
and falls through to return the `next` result. -/
theorem claim_C3 (create : String → String → CreateResult)
    (rooms : List Room)
    (h : ∀ r ∈ rooms, validRoom r = true
      ∧ create r.addr r.dname = CreateResult.session) :
    createsOf (middleware STATUS_AVAILABLE
        (IncomingAction.sipGwInviteRooms rooms create)).1
      = rooms.map (fun r => (r.addr, r.dname))
    ∧ startsOf (middleware STATUS_AVAILABLE
        (IncomingAction.sipGwInviteRooms rooms create)).1
      = rooms.map (fun r => (r.addr, r.dname))
    ∧ dispatchesOf (middleware STATUS_AVAILABLE
        (IncomingAction.sipGwInviteRooms rooms create)).1 = []
    ∧ (middleware STATUS_AVAILABLE
        (IncomingAction.sipGwInviteRooms rooms create)).2 = true := by
  have hok : ∀ r ∈ rooms, okRoom create r = true := fun r hr => by
    simp [okRoom, (h r hr).2]
  have hp := processRooms_eq_of_ok create rooms hok
  have h1 : (middleware STATUS_AVAILABLE
      (IncomingAction.sipGwInviteRooms rooms create)).1
      = Effect.nextAction :: loopEffs create rooms := by
    rw [middleware_available, hp]
  have h2 : (middleware STATUS_AVAILABLE
      (IncomingAction.sipGwInviteRooms rooms create)).2 = true := by
    rw [middleware_available, hp]
  refine ⟨?_, ?_, ?_, h2⟩
  · rw [h1, createsOf_cons_next, createsOf_loopEffs_all create rooms h]
  · rw [h1, startsOf_cons_next, startsOf_loopEffs_all create rooms h]
  · rw [h1, dispatchesOf_cons_next, dispatchesOf_loopEffs]

/-- C3 witness: two complete rooms on an always-succeeding conference. -/
theorem claim_C3_witness :
    createsOf (middleware STATUS_AVAILABLE
        (IncomingAction.sipGwInviteRooms [roomA, roomB] createOk)).1
      = [roomA, roomB].map (fun r => (r.addr, r.dname))
    ∧ startsOf (middleware STATUS_AVAILABLE
        (IncomingAction.sipGwInviteRooms [roomA, roomB] createOk)).1
      = [roomA, roomB].map (fun r => (r.addr, r.dname))
    ∧ dispatchesOf (middleware STATUS_AVAILABLE
        (IncomingAction.sipGwInviteRooms [roomA, roomB] createOk)).1 = []
    ∧ (middleware STATUS_AVAILABLE
        (IncomingAction.sipGwInviteRooms [roomA, roomB] createOk)).2
      = true :=
  claim_C3 createOk [roomA, roomB] (by decide)

/-- C6: with status AVAILABLE, a room missing its address or display
name only contributes a log line: the loop does not stop there, does not
dispatch for it, does not create a session for it, and processing
continues with the remaining rooms exactly as it would on them alone. -/
theorem claim_C6 (create : String → String → CreateResult)
    (pre : List Room) (bad : Room) (post : List Room)
    (hpre : ∀ p ∈ pre, okRoom create p = true)
    (hbad : validRoom bad = false) :
    middleware STATUS_AVAILABLE
        (IncomingAction.sipGwInviteRooms (pre ++ bad :: post) create)
      = (Effect.nextAction :: (loopEffs create pre
          ++ Effect.logNoFields bad :: (processRooms create post).1),
         (processRooms create post).2)
    ∧ dispatchesOf (middleware STATUS_AVAILABLE
        (IncomingAction.sipGwInviteRooms (pre ++ bad :: post) create)).1
      = dispatchesOf (processRooms create post).1
    ∧ createsOf (middleware STATUS_AVAILABLE
        (IncomingAction.sipGwInviteRooms (pre ++ bad :: post) create)).1
      = validCreates pre ++ createsOf (processRooms create post).1 := by
  have happ := processRooms_ok_append create pre hpre (bad :: post)
  have htail : processRooms create (bad :: post)
      = (Effect.logNoFields bad :: (processRooms create post).1,
         (processRooms create post).2) := by
    simp only [processRooms]
    simp [hbad]
  have htr : (middleware STATUS_AVAILABLE
      (IncomingAction.sipGwInviteRooms (pre ++ bad :: post) create)).1
      = Effect.nextAction :: (loopEffs create pre
          ++ Effect.logNoFields bad :: (processRooms create post).1) := by
    rw [middleware_available, happ, htail]
  have hmw : middleware STATUS_AVAILABLE
      (IncomingAction.sipGwInviteRooms (pre ++ bad :: post) create)
      = (Effect.nextAction :: (loopEffs create pre
          ++ Effect.logNoFields bad :: (processRooms create post).1),
         (processRooms create post).2) := by
    rw [middleware_available, happ, htail]
  refine ⟨hmw, ?_, ?_⟩
  · rw [htr, dispatchesOf_cons_next, dispatchesOf_append,
      dispatchesOf_loopEffs, dispatchesOf_cons_log]
    rfl
  · rw [htr, createsOf_cons_next, createsOf_append,
      createsOf_loopEffs create pre hpre, createsOf_cons_log]

/-- C6 witness: a complete room, a room with no id, then another
complete room that is still attempted. -/
theorem claim_C6_witness :
    middleware STATUS_AVAILABLE
        (IncomingAction.sipGwInviteRooms ([roomA] ++ roomNoId :: [roomB])
          createOk)
      = (Effect.nextAction :: (loopEffs createOk [roomA]
          ++ Effect.logNoFields roomNoId :: (processRooms createOk [roomB]).1),
         (processRooms createOk [roomB]).2)
    ∧ dispatchesOf (middleware STATUS_AVAILABLE
        (IncomingAction.sipGwInviteRooms ([roomA] ++ roomNoId :: [roomB])
          createOk)).1
      = dispatchesOf (processRooms createOk [roomB]).1
    ∧ createsOf (middleware STATUS_AVAILABLE
        (IncomingAction.sipGwInviteRooms ([roomA] ++ roomNoId :: [roomB])
          createOk)).1
      = validCreates [roomA] ++ createsOf (processRooms createOk [roomB]).1 :=
  claim_C6 createOk [roomA] roomNoId [roomB] (by decide) (by decide)

/-- C7: with status AVAILABLE, when the first non-passed room's creation
fails with an error whose code is neither recognized value, the
middleware only logs the unknown error and stops: the trace ends with
the failed creation call and the log line, no notification is
dispatched, and no later room is processed. -/
theorem claim_C7 (create : String → String → CreateResult)
    (pre : List Room) (r : Room) (post : List Room) (msg : String)
    (hpre : ∀ p ∈ pre, okRoom create p = true)
    (hr : validRoom r = true)
    (hc : create r.addr r.dname = CreateResult.failure msg)
    (h1 : msg ≠ ERROR_NO_CONNECTION)
    (h2 : msg ≠ ERROR_SESSION_EXISTS) :
    middleware STATUS_AVAILABLE
        (IncomingAction.sipGwInviteRooms (pre ++ r :: post) create)
      = (Effect.nextAction :: (loopEffs create pre
          ++ [Effect.createSession r.addr r.dname,
              Effect.logUnknownError msg]), false)
    ∧ dispatchesOf (middleware STATUS_AVAILABLE
        (IncomingAction.sipGwInviteRooms (pre ++ r :: post) create)).1
      = [] := by
  have happ := processRooms_ok_append create pre hpre (r :: post)
  have htail : processRooms create (r :: post)
      = ([Effect.createSession r.addr r.dname,
          Effect.logUnknownError msg], false) := by
    unfold processRooms
    simp [hr, hc, h1, h2]
  have htail1 : (processRooms create (r :: post)).1
      = [Effect.createSession r.addr r.dname,
         Effect.logUnknownError msg] := by
    rw [htail]
  have htr : (middleware STATUS_AVAILABLE
      (IncomingAction.sipGwInviteRooms (pre ++ r :: post) create)).1
      = Effect.nextAction :: (loopEffs create pre
          ++ (processRooms create (r :: post)).1) := by
    rw [middleware_available, happ]
  have hmw : middleware STATUS_AVAILABLE
      (IncomingAction.sipGwInviteRooms (pre ++ r :: post) create)
      = (Effect.nextAction :: (loopEffs create pre
          ++ [Effect.createSession r.addr r.dname,
              Effect.logUnknownError msg]), false) := by
    rw [middleware_available, happ, htail]
  refine ⟨hmw, ?_⟩
  rw [htr, htail1, dispatchesOf_cons_next, dispatchesOf_append,
    dispatchesOf_loopEffs, dispatchesOf_create_log]
  rfl

/-- C7 witness: a successful room, a room failing with an unrecognized
error code, then a never-attempted room. -/
theorem claim_C7_witness :
    middleware STATUS_AVAILABLE
        (IncomingAction.sipGwInviteRooms ([roomA] ++ roomBad :: [roomB])
          createFailOdd)
      = (Effect.nextAction :: (loopEffs createFailOdd [roomA]
          ++ [Effect.createSession roomBad.addr roomBad.dname,
              Effect.logUnknownError "weird"]), false)
    ∧ dispatchesOf (middleware STATUS_AVAILABLE
        (IncomingAction.sipGwInviteRooms ([roomA] ++ roomBad :: [roomB])
          createFailOdd)).1
      = [] :=
  claim_C7 createFailOdd [roomA] roomBad [roomB] "weird" (by decide)
    (by decide) (by decide) (by decide) (by decide)

/-- C10: the middleware passes the `next` result through exactly on an
unmatched action, on conference-will-join, and on an invite-rooms loop
that runs to completion; on the early exits (status UNDEFINED, BUSY or
unknown, and any per-room engine failure) it returns undefined.  The
loop completes precisely when no passed-over prefix is followed by a
valid room whose creation fails. -/
theorem claim_C10 (status : String)
    (create : String → String → CreateResult) (rooms : List Room) :
    (middleware status IncomingAction.other).2 = true
    ∧ (middleware status IncomingAction.conferenceWillJoin).2 = true
    ∧ (status ≠ STATUS_AVAILABLE →
        (middleware status
          (IncomingAction.sipGwInviteRooms rooms create)).2 = false)
    ∧ (status = STATUS_AVAILABLE →
        ((middleware status
            (IncomingAction.sipGwInviteRooms rooms create)).2 = true ↔
          ¬ ∃ pre r post, rooms = pre ++ r :: post
              ∧ (∀ p ∈ pre, okRoom create p = true)
              ∧ validRoom r = true
              ∧ ∃ msg, create r.addr r.dname = CreateResult.failure msg)) := by
  refine ⟨rfl, rfl, ?_, ?_⟩
  · intro h
    by_cases h1 : status = STATUS_UNDEFINED
    · subst h1
      simp [middleware]
    · by_cases h2 : status = STATUS_BUSY
      · subst h2
        have hbu : STATUS_BUSY ≠ STATUS_UNDEFINED := by decide
        simp [middleware, hbu]
      · simp [middleware, h1, h2, h]
  · intro h
    subst h
    have key := processRooms_false_iff create rooms
    have hmw : (middleware STATUS_AVAILABLE
        (IncomingAction.sipGwInviteRooms rooms create)).2
        = (processRooms create rooms).2 := by
      rw [middleware_available]
    rw [hmw]
    constructor
    · intro ht hex
      have hf := key.mpr hex
      rw [ht] at hf
      exact Bool.noConfusion hf
    · intro hne
      cases hb : (processRooms create rooms).2 with
      | false => exact absurd (key.mp hb) hne
      | true => rfl

/-- C10 witness: an unknown status returns undefined; a completed loop
on a singleton room list means there is no failing split of it. -/
theorem claim_C10_witness :
    (middleware "bogus"
      (IncomingAction.sipGwInviteRooms [roomA] createOk)).2 = false
    ∧ ¬ ∃ pre r post, [roomA] = pre ++ r :: post
        ∧ (∀ p ∈ pre, okRoom createOk p = true)
        ∧ validRoom r = true
        ∧ ∃ msg, createOk r.addr r.dname = CreateResult.failure msg :=
  ⟨(claim_C10 "bogus" createOk [roomA]).2.2.1 (by decide),
   ((claim_C10 STATUS_AVAILABLE createOk [roomA]).2.2.2 rfl).mp (by decide)⟩

end VideoSipGw
